import Mathlib

/-!
Verification of the ocpp2mqtt relay/translation pipeline.

This file gives a shallow embedding of the parts of the ocpp2mqtt sources
that the claims are about:

  * `src/ocpp2mqtt/relay/ocpprelay.py`   (`OCPPRelay._relay`)
  * `src/ocpp2mqtt/relay/snoopws.py`     (`SnoopWebSocketServer._forward_messages`,
                                          `SnoopWebSocketServer._on_connect`)
  * `src/ocpp2mqtt/mqtt/ocppfilter.py`   (`OCPPFilter.filter` and helpers)
  * `src/ocpp2mqtt/mqtt/mqttpublish.py`  (`MQTTPublisher.run`,
                                          `MQTTPublisher._mqtt_on_connect`)
  * `src/ocpp2mqtt/common/types.py`      (`MessageData`, `MQTTData`)

Values that travel through the system are JSON values produced by Python's
`json.loads`.  JSON numbers are modelled as integers; none of the frames the
claims are about carry fractional numbers.  Python exceptions raised by
attribute access / indexing on the wrong type are modelled with `Except`.
-/

/-- `str.replace(old, new)` for the single-character patterns and
replacements the sources use (`"." → "-"`, `"/" → "_"`, `"-" → " "`). -/
def sReplace1 (a b : Char) (s : String) : String :=
  ⟨s.data.map (fun c => if c = a then b else c)⟩

/-- `str.startswith(pre)`. -/
def sStartsWith (s pre : String) : Bool :=
  pre.data.isPrefixOf s.data

/-- `str.lower()`. -/
def sToLower (s : String) : String :=
  ⟨s.data.map Char.toLower⟩

/-- `s[n:]`. -/
def sDrop (s : String) (n : Nat) : String :=
  ⟨s.data.drop n⟩

/-- JSON values as produced by Python's `json.loads` (numbers restricted to
integers; the frames relevant to the claims carry only integers). -/
inductive Json where
  | null : Json
  | bool (b : Bool) : Json
  | num (n : Int) : Json
  | str (s : String) : Json
  | arr (xs : List Json) : Json
  | obj (kvs : List (String × Json)) : Json

/-- Kinds of Python exceptions the embedded code can raise. -/
inductive PyErr where
  | typeError : PyErr
  | keyError : PyErr
  | attributeError : PyErr
  | indexError : PyErr
  | jsonDecodeError : PyErr
  deriving DecidableEq, Repr

/-- Escape one character the way Python's `json.dumps` (default
`ensure_ascii=True`) renders it inside a string literal.  Characters above
the BMP are not needed by any claim and are rendered via a single escape. -/
def jsonEscapeChar (c : Char) : String :=
  if c = '"' then "\\\""
  else if c = '\\' then "\\\\"
  else if c = '\n' then "\\n"
  else if c = '\t' then "\\t"
  else if c = '\r' then "\\r"
  else if c.toNat < 0x20 ∨ c.toNat > 0x7e then
    let hex := Nat.toDigits 16 c.toNat
    let pad := List.replicate (4 - hex.length) '0'
    "\\u" ++ String.mk (pad ++ hex)
  else String.singleton c

/-- Python `json.dumps` of a string value. -/
def jsonDumpString (s : String) : String :=
  "\"" ++ String.join (s.data.map jsonEscapeChar) ++ "\""

mutual
/-- Python `json.dumps` with the default separators `", "` and `": "`. -/
def jsonDumps : Json → String
  | .null => "null"
  | .bool true => "true"
  | .bool false => "false"
  | .num n => toString n
  | .str s => jsonDumpString s
  | .arr xs => "[" ++ jsonDumpsList xs ++ "]"
  | .obj kvs => "\x7b" ++ jsonDumpsObj kvs ++ "\x7d"

def jsonDumpsList : List Json → String
  | [] => ""
  | [x] => jsonDumps x
  | x :: xs => jsonDumps x ++ ", " ++ jsonDumpsList xs

def jsonDumpsObj : List (String × Json) → String
  | [] => ""
  | [(k, v)] => jsonDumpString k ++ ": " ++ jsonDumps v
  | (k, v) :: kvs => jsonDumpString k ++ ": " ++ jsonDumps v ++ ", " ++ jsonDumpsObj kvs
end

/-- Python truthiness of a JSON value (`bool(x)` for values coming out of
`json.loads`): `None`, `False`, `0`, `""`, `[]` and `{}` are falsy. -/
def jsonTruthy : Json → Bool
  | .null => false
  | .bool b => b
  | .num n => n != 0
  | .str s => !s.isEmpty
  | .arr xs => !xs.isEmpty
  | .obj kvs => !kvs.isEmpty

/-- Python truthiness of an optional JSON value (`None` is falsy). -/
def pyTruthy : Option Json → Bool
  | none => false
  | some j => jsonTruthy j

/-- Python `repr` of a string (single-quoted form; the claims never render a
string that needs the double-quoted fallback). -/
def pyReprString (s : String) : String :=
  "'" ++ String.join (s.data.map (fun c =>
    if c = '\'' then "\\'"
    else if c = '\\' then "\\\\"
    else if c = '\n' then "\\n"
    else String.singleton c)) ++ "'"

mutual
/-- Python `repr` of a value that came out of `json.loads`. -/
def pyRepr : Json → String
  | .null => "None"
  | .bool true => "True"
  | .bool false => "False"
  | .num n => toString n
  | .str s => pyReprString s
  | .arr xs => "[" ++ pyReprList xs ++ "]"
  | .obj kvs => "\x7b" ++ pyReprObj kvs ++ "\x7d"

def pyReprList : List Json → String
  | [] => ""
  | [x] => pyRepr x
  | x :: xs => pyRepr x ++ ", " ++ pyReprList xs

def pyReprObj : List (String × Json) → String
  | [] => ""
  | [(k, v)] => pyReprString k ++ ": " ++ pyRepr v
  | (k, v) :: kvs => pyReprString k ++ ": " ++ pyRepr v ++ ", " ++ pyReprObj kvs
end

/-- Python `str()` of a `json.loads` value, as used by f-string interpolation:
identical to `repr` except that strings render without quotes. -/
def pyStrJson : Json → String
  | .str s => s
  | j => pyRepr j

/-- f-string rendering of a variable that may hold Python `None`. -/
def pyStrOpt : Option Json → String
  | none => "None"
  | some j => pyStrJson j

/-- Python `x.get(k)` on a `json.loads` value: only dicts have `.get`;
anything else raises `AttributeError`. -/
def pyGet : Json → String → Except PyErr (Option Json)
  | .obj kvs, k => .ok (kvs.lookup k)
  | _, _ => .error .attributeError

/-- Python `x.get(k, d)` with a default. -/
def pyGetD (j : Json) (k : String) (d : Json) : Except PyErr Json :=
  match pyGet j k with
  | .error e => .error e
  | .ok none => .ok d
  | .ok (some v) => .ok v

/-- Python `x[i]` for a non-negative integer index on a `json.loads` value:
lists and strings index positionally, dicts raise `KeyError` (their keys are
strings), scalars raise `TypeError`. -/
def pyIndex : Json → Nat → Except PyErr Json
  | .arr xs, i =>
      match xs.get? i with
      | some v => .ok v
      | none => .error .indexError
  | .str s, i =>
      match s.data.get? i with
      | some c => .ok (.str (String.singleton c))
      | none => .error .indexError
  | .obj _, _ => .error .keyError
  | _, _ => .error .typeError

/-- Python `for x in j` on a `json.loads` value: lists yield elements,
strings yield one-character strings, dicts yield their keys, scalars raise
`TypeError`. -/
def pyIter : Json → Except PyErr (List Json)
  | .arr xs => .ok xs
  | .str s => .ok (s.data.map (fun c => .str (String.singleton c)))
  | .obj kvs => .ok (kvs.map (fun kv => .str kv.1))
  | _ => .error .typeError

/-- Lookup in a Python dict modelled as an insertion-ordered association
list (keys unique). -/
def dictGet (m : List (String × α)) (k : String) : Option α :=
  m.lookup k

/-- `d[k] = v` on a Python dict: overwrite in place, else append. -/
def dictSet : List (String × α) → String → α → List (String × α)
  | [], k, v => [(k, v)]
  | (k', v') :: rest, k, v =>
      if k' = k then (k, v) :: rest else (k', v') :: dictSet rest k v

/-- The characters `json` treats as whitespace between tokens. -/
def skipWs : List Char → List Char
  | [] => []
  | c :: rest =>
      if c = ' ' ∨ c = '\t' ∨ c = '\n' ∨ c = '\r' then skipWs rest else c :: rest

def hexVal (c : Char) : Option Nat :=
  if '0' ≤ c ∧ c ≤ '9' then some (c.toNat - '0'.toNat)
  else if 'a' ≤ c ∧ c ≤ 'f' then some (c.toNat - 'a'.toNat + 10)
  else if 'A' ≤ c ∧ c ≤ 'F' then some (c.toNat - 'A'.toNat + 10)
  else none

/-- Body of a JSON string literal, after the opening quote. -/
def parseStringBody : List Char → String → Except PyErr (String × List Char)
  | [], _ => .error .jsonDecodeError
  | '"' :: rest, acc => .ok (acc, rest)
  | '\\' :: '"' :: r, acc => parseStringBody r (acc.push '"')
  | '\\' :: '\\' :: r, acc => parseStringBody r (acc.push '\\')
  | '\\' :: '/' :: r, acc => parseStringBody r (acc.push '/')
  | '\\' :: 'b' :: r, acc => parseStringBody r (acc.push (Char.ofNat 8))
  | '\\' :: 'f' :: r, acc => parseStringBody r (acc.push (Char.ofNat 12))
  | '\\' :: 'n' :: r, acc => parseStringBody r (acc.push '\n')
  | '\\' :: 'r' :: r, acc => parseStringBody r (acc.push '\r')
  | '\\' :: 't' :: r, acc => parseStringBody r (acc.push '\t')
  | '\\' :: 'u' :: a :: b :: c :: d :: r, acc =>
      match hexVal a, hexVal b, hexVal c, hexVal d with
      | some ha, some hb, some hc, some hd =>
          parseStringBody r (acc.push (Char.ofNat (((ha * 16 + hb) * 16 + hc) * 16 + hd)))
      | _, _, _, _ => .error .jsonDecodeError
  | '\\' :: _, _ => .error .jsonDecodeError
  | c :: rest, acc => parseStringBody rest (acc.push c)

def digitsToNat (ds : List Char) : Nat :=
  ds.foldl (fun a c => 10 * a + (c.toNat - '0'.toNat)) 0

/-- JSON integer literal.  Fractional and exponent forms are not modelled
(no frame the claims touch carries them); they are reported as decode
errors. -/
def parseNumber (s : List Char) : Except PyErr (Json × List Char) :=
  let core := fun (sign : Int) (s1 : List Char) =>
    let ds := s1.takeWhile Char.isDigit
    let rest := s1.dropWhile Char.isDigit
    if ds.isEmpty then Except.error PyErr.jsonDecodeError
    else if 1 < ds.length ∧ ds.head? = some '0' then Except.error PyErr.jsonDecodeError
    else
      match rest with
      | c :: _ =>
          if c = '.' ∨ c = 'e' ∨ c = 'E' then Except.error PyErr.jsonDecodeError
          else Except.ok (Json.num (sign * (digitsToNat ds : Int)), rest)
      | [] => Except.ok (Json.num (sign * (digitsToNat ds : Int)), rest)
  match s with
  | '-' :: s1 => core (-1) s1
  | _ => core 1 s

/-- Opening and closing brace characters, named to keep string literals
elsewhere free of braces. -/
def lbrace : Char := Char.ofNat 0x7b

def rbrace : Char := Char.ofNat 0x7d

/-- Build a Python dict from JSON object members in order (`d[k] = v` per
member, so a duplicate key overwrites in place as `json.loads` does). -/
def mkDict (kvs : List (String × Json)) : List (String × Json) :=
  kvs.foldl (fun d kv => dictSet d kv.1 kv.2) []

mutual
/-- One JSON value, fuel-indexed recursive descent matching Python
`json.loads` (minus non-integer numbers). -/
def parseVal : Nat → List Char → Except PyErr (Json × List Char)
  | 0, _ => .error .jsonDecodeError
  | fuel + 1, s =>
    match skipWs s with
    | [] => .error .jsonDecodeError
    | 'n' :: 'u' :: 'l' :: 'l' :: rest => .ok (.null, rest)
    | 't' :: 'r' :: 'u' :: 'e' :: rest => .ok (.bool true, rest)
    | 'f' :: 'a' :: 'l' :: 's' :: 'e' :: rest => .ok (.bool false, rest)
    | '"' :: rest => (parseStringBody rest "").map (fun p => (.str p.1, p.2))
    | c :: rest =>
      if c = '[' then
        match skipWs rest with
        | ']' :: rest' => .ok (.arr [], rest')
        | s' => (parseArrItems fuel s').map (fun p => (.arr p.1, p.2))
      else if c = lbrace then
        match skipWs rest with
        | [] => .error .jsonDecodeError
        | c' :: rest' =>
          if c' = rbrace then .ok (.obj [], rest')
          else (parseObjItems fuel (c' :: rest')).map (fun p => (.obj (mkDict p.1), p.2))
      else if c = '-' ∨ c.isDigit then parseNumber (c :: rest)
      else .error .jsonDecodeError

def parseArrItems : Nat → List Char → Except PyErr (List Json × List Char)
  | 0, _ => .error .jsonDecodeError
  | fuel + 1, s =>
    match parseVal fuel s with
    | .error e => .error e
    | .ok (v, rest) =>
      match skipWs rest with
      | ',' :: rest' => (parseArrItems fuel rest').map (fun p => (v :: p.1, p.2))
      | ']' :: rest' => .ok ([v], rest')
      | _ => .error .jsonDecodeError

def parseObjItems : Nat → List Char → Except PyErr (List (String × Json) × List Char)
  | 0, _ => .error .jsonDecodeError
  | fuel + 1, s =>
    match skipWs s with
    | '"' :: rest =>
      match parseStringBody rest "" with
      | .error e => .error e
      | .ok (k, rest1) =>
        match skipWs rest1 with
        | ':' :: rest2 =>
          match parseVal fuel rest2 with
          | .error e => .error e
          | .ok (v, rest3) =>
            match skipWs rest3 with
            | ',' :: rest4 => (parseObjItems fuel rest4).map (fun p => ((k, v) :: p.1, p.2))
            | c :: rest4 =>
                if c = rbrace then .ok ([(k, v)], rest4) else .error .jsonDecodeError
            | [] => .error .jsonDecodeError
        | _ => .error .jsonDecodeError
    | _ => .error .jsonDecodeError
end

/-- Python `json.loads` on a text frame (integer-number fragment of JSON). -/
def pyJsonLoads (s : String) : Except PyErr Json :=
  match parseVal (2 * s.length + 2) s.data with
  | .error e => .error e
  | .ok (j, rest) =>
      if (skipWs rest).isEmpty then .ok j else .error .jsonDecodeError

/-- Association-list lookup with decidable key equality (Python dict read;
`none` = key absent). -/
def alGet [DecidableEq κ] : List (κ × α) → κ → Option α
  | [], _ => none
  | (k', v) :: rest, k => if k' = k then some v else alGet rest k

/-- `d[k] = v` for an arbitrary key type. -/
def alSet [DecidableEq κ] : List (κ × α) → κ → α → List (κ × α)
  | [], k, v => [(k, v)]
  | (k', v') :: rest, k, v =>
      if k' = k then (k, v) :: rest else (k', v') :: alSet rest k v

/-- f-string rendering of a Python variable holding a string or `None`. -/
def pyStrOptString : Option String → String
  | none => "None"
  | some s => s

/-- `src/ocpp2mqtt/common/types.py` `MessageData`: the envelope placed on the
snoop queue for every observed transport event. -/
structure MessageData where
  event : String
  sender : String
  protocol : Option String := none
  cp_id : Option String := none
  payload : Json := .obj []
  timestamp : String

/-- `dataclasses.asdict` on a `MessageData`, with fields in declaration
order, as serialized by the snoop server. -/
def MessageData.asdict (m : MessageData) : Json :=
  .obj [("event", .str m.event),
        ("sender", .str m.sender),
        ("protocol", match m.protocol with | none => .null | some s => .str s),
        ("cp_id", match m.cp_id with | none => .null | some s => .str s),
        ("payload", m.payload),
        ("timestamp", .str m.timestamp)]

/-- `src/ocpp2mqtt/common/types.py` `MQTTData`.  The `manufacturer` and
`name` fields are not declared in the dataclass but are assigned onto every
instance by `OCPPFilter` before use, so they are ordinary fields here. -/
structure MQTTData where
  device_class : String := "sensor"
  cp_id : Option String := none
  topic : Option String := none
  unique_id : Option String := none
  vendor_id : Option String := none
  value : Option Json := none
  value_type : Option String := none
  unit : Option Json := none
  timestamp : Option String := none
  manufacturer : Option Json := none
  name : Option String := none

namespace OCPPFilter

/-- The mutable state of `OCPPFilter`: `self._manufacturer`, a dict from
charge-point id to the learned vendor value (`None` until learned).  The key
is the raw `msg.cp_id`, which may itself be Python `None`. -/
structure State where
  manufacturer : List (Option String × Option Json) := []

/-- `OCPPFilter._get_manufacturer` (ocppfilter.py lines 55-66): extract
`vendorId` from a `DataTransfer` request payload when present. -/
def getManufacturer (ocpp : List Json) : Option Json :=
  match ocpp.getD 2 .null, ocpp.getD 3 .null with
  | .str "DataTransfer", .obj kvs => kvs.lookup "vendorId"
  | _, _ => none

/-- `OCPPFilter._new_MQTTData` (lines 68-73).  The source reads
`self._manufacturer[cp_id]`; every caller runs after `filter` has created
the entry, so the lookup cannot raise and the absent case is mapped to
`None`. -/
def newMQTTData (st : State) (cp_id : Option String) (timestamp : String) : MQTTData :=
  { cp_id := cp_id,
    manufacturer := (alGet st.manufacturer cp_id).getD none,
    timestamp := some timestamp }

/-- `OCPPFilter._new_meter_MQTTData` (lines 75-116): build the meter-value
record shared by the 1.6 and 2.0 paths, or `None` when the measurand does
not classify as current/energy/power/voltage. -/
def measurandString (value_type : Option Json) : String :=
  match value_type with
  | some (.str s) => s
  | _ => "Energy.Active.Import.Register"

/-- The `startswith` dispatch of `_new_meter_MQTTData` (lines 89-98):
classify a separator-normalized measurand, `None` when unclassifiable. -/
def sensorTypeOf (vt : String) : Option String :=
  if sStartsWith vt "Current" then some "current"
  else if sStartsWith vt "Energy" then some "energy"
  else if sStartsWith vt "Power" then some "power"
  else if sStartsWith vt "Voltage" then some "voltage"
  else none

def newMeterMQTTData (st : State) (cp_id : Option String) (timestamp : String)
    (value_type : Option Json) (evse_id : Option Json) (location : Option Json)
    (value : Option Json) (unit : Option Json) : Option MQTTData :=
  let vt := sReplace1 '.' '-' (measurandString value_type)
  match sensorTypeOf vt with
  | none => none
  | some sensor_type =>
    let loc : String := if pyTruthy location then pyStrOpt location else "Outlet"
    let m0 := newMQTTData st cp_id timestamp
    let topic := pyStrOpt evse_id ++ "/" ++ loc ++ "/" ++ vt
    let unique_id := sReplace1 '/' '_' ("OCPP_" ++ pyStrOptString cp_id ++ "_" ++ topic)
    let name :=
      if !pyTruthy evse_id then
        sReplace1 '-' ' ' vt ++ " " ++ loc ++ " CP " ++ pyStrOptString cp_id
      else
        "C" ++ pyStrOpt evse_id ++ " " ++ sReplace1 '-' ' ' vt ++ " " ++ loc ++ " CP " ++
          pyStrOptString cp_id
    some { m0 with
           topic := some topic, unique_id := some unique_id, name := some name,
           value := value, device_class := sensor_type, unit := unit }

/-- Inner `for v in mv.get('sampledValue', [])` loop of the 1.6
`MeterValues` branch (lines 141-149). -/
def sampleLoop16 (st : State) (cp_id : Option String) (ts : String) (payload : Json) :
    List Json → Except PyErr (List MQTTData)
  | [] => .ok []
  | v :: rest => do
      let measurand ← pyGet v "measurand"
      let connector ← pyGet payload "connectorId"
      let location ← pyGet v "location"
      let value ← pyGet v "value"
      let unit ← pyGet v "unit"
      let more ← sampleLoop16 st cp_id ts payload rest
      match newMeterMQTTData st cp_id ts measurand connector location value unit with
      | none => .ok more
      | some m => .ok (m :: more)

/-- Outer `for mv in payload.get('meterValue', [])` loop of the 1.6
`MeterValues` branch (lines 140-149). -/
def meterLoop16 (st : State) (cp_id : Option String) (ts : String) (payload : Json) :
    List Json → Except PyErr (List MQTTData)
  | [] => .ok []
  | mv :: rest => do
      let svJ ← pyGetD mv "sampledValue" (.arr [])
      let svs ← pyIter svJ
      let ms ← sampleLoop16 st cp_id ts payload svs
      let more ← meterLoop16 st cp_id ts payload rest
      .ok (ms ++ more)

/-- `OCPPFilter._filter_ocpp16` (lines 118-152). -/
def filterOcpp16 (st : State) (cp_id : Option String) (ts : String) (ocpp : List Json) :
    Except PyErr (Option (List MQTTData)) :=
  let payload := ocpp.getD 3 .null
  match ocpp.getD 2 .null with
  | .str "StatusNotification" => do
      let m0 := newMQTTData st cp_id ts
      let cable_id ← pyGet payload "connectorId"
      let status ← pyGet payload "status"
      let name :=
        if !pyTruthy cable_id then "Status CP " ++ pyStrOptString cp_id
        else "C" ++ pyStrOpt cable_id ++ " Status CP " ++ pyStrOptString cp_id
      .ok (some [{ m0 with
                   topic := some (pyStrOpt cable_id ++ "/status"),
                   unique_id := some ("OCPP_" ++ pyStrOptString cp_id ++ "_" ++
                                      pyStrOpt cable_id ++ "_status"),
                   name := some name, value := status }])
  | .str "MeterValues" => do
      let mvJ ← pyGetD payload "meterValue" (.arr [])
      let mvs ← pyIter mvJ
      let ms ← meterLoop16 st cp_id ts payload mvs
      .ok (some ms)
  | _ => .ok none

/-- Inner sampled-value loop of the 2.0 `MeterValues` branch
(lines 182-196), including the `unitOfMeasure` handling. -/
def sampleLoop20 (st : State) (cp_id : Option String) (ts : String) (payload : Json) :
    List Json → Except PyErr (List MQTTData)
  | [] => .ok []
  | v :: rest => do
      let uom ← pyGet v "unitOfMeasure"
      let unit ← if !pyTruthy uom then pure (some (Json.str "Wh"))
                 else pyGet (uom.getD .null) "unit"
      let measurand ← pyGet v "measurand"
      let evse ← pyGet payload "evseId"
      let location ← pyGet v "location"
      let value ← pyGet v "value"
      let more ← sampleLoop20 st cp_id ts payload rest
      match newMeterMQTTData st cp_id ts measurand evse location value unit with
      | none => .ok more
      | some m => .ok (m :: more)

/-- Outer meter-value loop of the 2.0 `MeterValues` branch (lines 181-196). -/
def meterLoop20 (st : State) (cp_id : Option String) (ts : String) (payload : Json) :
    List Json → Except PyErr (List MQTTData)
  | [] => .ok []
  | mv :: rest => do
      let svJ ← pyGetD mv "sampledValue" (.arr [])
      let svs ← pyIter svJ
      let ms ← sampleLoop20 st cp_id ts payload svs
      let more ← meterLoop20 st cp_id ts payload rest
      .ok (ms ++ more)

/-- `OCPPFilter._filter_ocpp20` (lines 154-199). -/
def filterOcpp20 (st : State) (cp_id : Option String) (ts : String) (ocpp : List Json) :
    Except PyErr (Option (List MQTTData)) :=
  let payload := ocpp.getD 3 .null
  match ocpp.getD 2 .null with
  | .str "StatusNotification" => do
      let m0 := newMQTTData st cp_id ts
      let cable_id ← pyGet payload "evseId"
      let status ← pyGet payload "connectorStatus"
      let name :=
        if !pyTruthy cable_id then "Status CP " ++ pyStrOptString cp_id
        else "C" ++ pyStrOpt cable_id ++ " Status CP " ++ pyStrOptString cp_id
      .ok (some [{ m0 with
                   topic := some (pyStrOpt cable_id ++ "/status"),
                   unique_id := some ("OCPP_" ++ pyStrOptString cp_id ++ "_" ++
                                      pyStrOpt cable_id ++ "_status"),
                   name := some name, value := status }])
  | .str "MeterValues" => do
      let mvJ ← pyGetD payload "meterValue" (.arr [])
      let mvs ← pyIter mvJ
      let ms ← meterLoop20 st cp_id ts payload mvs
      .ok (some ms)
  | _ => .ok none

/-- The `self._manufacturer` update at the top of `filter` (lines 36-39):
create the entry as `None` when absent, then learn from this frame while
the stored value is falsy. -/
def updateManufacturer (st : State) (cp_id : Option String) (ocpp : List Json) : State :=
  let st1 : State :=
    if (alGet st.manufacturer cp_id).isNone then ⟨alSet st.manufacturer cp_id none⟩
    else st
  if !pyTruthy ((alGet st1.manufacturer cp_id).getD none) then
    ⟨alSet st1.manufacturer cp_id (getManufacturer ocpp)⟩
  else st1

/-- `OCPPFilter.filter` (lines 17-53): the stateful entry point.  Returns
the updated `self._manufacturer` state together with the Python result
(`None`, a list, or a raised exception). -/
def filter (st : State) (msg : MessageData) : State × Except PyErr (Option (List MQTTData)) :=
  if msg.event ≠ "Message" then (st, .ok none)
  else if msg.sender ≠ "CP" then (st, .ok none)
  else
    let cp_id := msg.cp_id
    let protocol : Option String :=
      match msg.protocol with
      | none => none
      | some p =>
          if ¬p.isEmpty ∧ sStartsWith (sToLower p) "ocpp" then some (sDrop p 4) else some p
    match msg.payload with
    | .arr ocpp =>
      if ocpp.length < 4 then (st, .ok none)
      else
        match ocpp.getD 0 .null with
        | .num 2 =>
          let st2 := updateManufacturer st cp_id ocpp
          match ocpp.getD 2 .null with
          | .str "Heartbeat" =>
            let m0 := newMQTTData st2 cp_id msg.timestamp
            (st2, .ok (some [{ m0 with
                               topic := some "heartbeat",
                               unique_id := some ("OCPP_" ++ pyStrOptString cp_id ++
                                                  "_heartbeat"),
                               name := some ("Heartbeat CP " ++ pyStrOptString cp_id),
                               device_class := "timestamp",
                               value := some (.str msg.timestamp) }]))
          | _ =>
            if protocol = some "1.6" then
              (st2, filterOcpp16 st2 cp_id msg.timestamp ocpp)
            else
              (st2, filterOcpp20 st2 cp_id msg.timestamp ocpp)
        | _ => (st, .ok none)
    | _ => (st, .ok none)

end OCPPFilter

namespace SnoopWebSocketServer

/-- The loop body of `_forward_messages` for one queue item (snoopws.py
lines 43-48): iterate over a copy of `self.snoop_sockets` (first list
argument), while `live` is the set itself; a client whose `send` raises is
removed from the live set and the loop continues with the next client.
`fails ws` says whether `ws.send` raises for this message.  Returns the
(client, bytes) deliveries in iteration order and the final live set. -/
def fwdLoop (fails : Nat → Bool) (msgJson : String) :
    List Nat → List Nat → List (Nat × String) × List Nat
  | [], live => ([], live)
  | ws :: rest, live =>
      if fails ws then fwdLoop fails msgJson rest (live.erase ws)
      else
        let p := fwdLoop fails msgJson rest live
        ((ws, msgJson) :: p.1, p.2)

/-- `_forward_messages` handling of one dequeued event (lines 38-48): the
event is serialized once, `msg_json = json.dumps(asdict(msg))`, and that
string is sent to every client in `self.snoop_sockets.copy()`. -/
def forwardEvent (live : List Nat) (fails : Nat → Bool) (msg : MessageData) :
    List (Nat × String) × List Nat :=
  fwdLoop fails (jsonDumps msg.asdict) live live

/-- Python `set.remove`, as called unconditionally at the end of
`_on_connect` (snoopws.py line 63): raises `KeyError` when the element is
absent. -/
def setRemove (live : List Nat) (ws : Nat) : Except PyErr (List Nat) :=
  if ws ∈ live then .ok (live.erase ws) else .error .keyError

end SnoopWebSocketServer

namespace OCPPRelay

/-- Result of one iteration of `OCPPRelay._relay` (ocpprelay.py lines
36-50) on one received frame: the bytes sent to the peer (if the send was
reached), the envelope put on the snoop queue (if reached), and the
exception, if any, that escaped the loop body — the source catches only
`ConnectionClosed`. -/
structure StepResult where
  sent : Option String
  snooped : Option MessageData
  err : Option PyErr

/-- One `_relay` iteration: `message = await source_ws.recv()`, then
`json.loads(message)`, then `await target_ws.send(message)` (the raw
bytes), then the log line reads `json_message[1]`, then the
`MessageData` envelope is put on the snoop queue.  `ts` is the timestamp
the `MessageData` default factory assigns at construction. -/
def relayStep (sender : String) (protocol cp_id : Option String) (ts : String)
    (message : String) : StepResult :=
  match pyJsonLoads message with
  | .error e => ⟨none, none, some e⟩
  | .ok j =>
      match pyIndex j 1 with
      | .error e => ⟨some message, none, some e⟩
      | .ok _ =>
          ⟨some message,
           some { event := "Message", sender := sender, protocol := protocol,
                  cp_id := cp_id, payload := j, timestamp := ts },
           none⟩

/-- `_relay` over the sequence of frames received before the connection
closes: processed frame by frame; the first exception not caught by the
loop's `except` clause terminates the loop.  Returns the frames sent to
the peer, the snoop envelopes emitted, and the escaping error, if any. -/
def relayLoop (sender : String) (protocol cp_id : Option String) (ts : String) :
    List String → List String × List MessageData × Option PyErr
  | [] => ([], [], none)
  | f :: rest =>
      let r := relayStep sender protocol cp_id ts f
      match r.err with
      | some e => (r.sent.toList, r.snooped.toList, some e)
      | none =>
          let t := relayLoop sender protocol cp_id ts rest
          (r.sent.toList ++ t.1, r.snooped.toList ++ t.2.1, t.2.2)

end OCPPRelay

namespace MQTTPublisher

/-- The connection flags `MQTTPublisher` keeps: `self._connected` and
`self._broker_connection_failed`. -/
structure Flags where
  connected : Bool := false
  failed : Bool := false

/-- `MQTTPublisher._mqtt_on_connect` (mqttpublish.py lines 92-104), as it
acts on the flags: a non-zero result code records the hard failure and
returns without ever setting `_connected`; a zero code marks the
connection established. -/
def onConnect (rc : Int) (f : Flags) : Flags :=
  if rc ≠ 0 then { f with failed := true } else { f with connected := true }

/-- The main `while True` loop of `MQTTPublisher.run` (lines 43-67) with
the callback-set flags held fixed for the scenario under analysis (no
further callback fires while `run` executes).  Each iteration dequeues and
publishes one record if available (a `wait_for` timeout otherwise), then
breaks when `_exit_task` is set and the queue is empty, then breaks when
`_broker_connection_failed` is set.  `none` models the loop never
terminating (empty queue, no stop request, no failure).  Otherwise the
result is (records published, whether the loop ended with the failure flag
set — in which case `run` raises `RuntimeError` after the loop). -/
def runLoop (failed exitReq : Bool) : List MQTTData → Option (List MQTTData × Bool)
  | [] =>
      if exitReq then some ([], failed)
      else if failed then some ([], true)
      else none
  | d :: rest =>
      if exitReq ∧ rest.isEmpty then some ([d], failed)
      else if failed then some ([d], true)
      else (runLoop failed exitReq rest).map (fun p => (d :: p.1, p.2))

/-- `MQTTPublisher.run` (lines 36-76) under fixed flags: the entry
`while not self._connected: await asyncio.sleep(0.1)` spin never exits
when `_connected` was never set, which `none` models; otherwise the main
loop runs.  The `Bool` in the result is true when `run` terminates by
raising `RuntimeError("Broker connection failed, stopped publisher.")`. -/
def runOutcome (f : Flags) (exitReq : Bool) (queue : List MQTTData) :
    Option (List MQTTData × Bool) :=
  if !f.connected then none
  else runLoop f.failed exitReq queue

end MQTTPublisher

/-! Concrete inputs used by the claim theorems and witnesses. -/

/-- A compact OCPP 1.6 Call frame as a charge point would send it (no
spaces after separators). -/
def frameC1 : String := "[2,\"a\",\"Heartbeat\",\x7b\x7d]"

/-- The value `json.loads` yields for `frameC1`. -/
def frameC1Val : Json := .arr [.num 2, .str "a", .str "Heartbeat", .obj []]

/-- A 1.6 MeterValues Message event with one sampled value; the connector
id, location and measurand are parameters. -/
def meterEvent16 (cp : String) (conn loc : Json) (meas : List (String × Json)) :
    MessageData :=
  { event := "Message", sender := "CP", protocol := some "ocpp1.6", cp_id := some cp,
    payload := .arr [.num 2, .str "100", .str "MeterValues",
      .obj [("connectorId", conn),
            ("meterValue", .arr [.obj [("sampledValue",
              .arr [.obj (meas ++ [("location", loc), ("value", .str "7"),
                                   ("unit", .str "Wh")])])]])]],
    timestamp := "T" }

/-- The C8 example event: OCPP 1.6 MeterValues, one sampled value with
measurand `Energy.Active.Import.Register`, value `"1234"`, unit `"Wh"`,
`connectorId` 1 and no location. -/
def eventC8 : MessageData :=
  { event := "Message", sender := "CP", protocol := some "ocpp1.6", cp_id := some "CP1",
    payload := .arr [.num 2, .str "100", .str "MeterValues",
      .obj [("connectorId", .num 1),
            ("meterValue", .arr [.obj [("sampledValue",
              .arr [.obj [("measurand", .str "Energy.Active.Import.Register"),
                          ("value", .str "1234"), ("unit", .str "Wh")]])]])]],
    timestamp := "2026-01-01T00:00:00Z" }

/-- The single record the C8 example must produce. -/
def recordC8 : MQTTData :=
  { device_class := "energy", cp_id := some "CP1",
    topic := some "1/Outlet/Energy-Active-Import-Register",
    unique_id := some "OCPP_CP1_1_Outlet_Energy-Active-Import-Register",
    value := some (.str "1234"), unit := some (.str "Wh"),
    timestamp := some "2026-01-01T00:00:00Z",
    name := some "C1 Energy Active Import Register Outlet CP CP1" }

/-- A MeterValues event whose only sampled value has an unrecognized
(string) measurand. -/
def eventC3 : MessageData :=
  meterEvent16 "CP1" (.num 1) (.str "Body") [("measurand", .str "Temperature")]

/-- A StatusNotification Call whose action payload is a list, not an
object. -/
def eventC9 : MessageData :=
  { event := "Message", sender := "CP", protocol := some "ocpp1.6", cp_id := some "CP1",
    payload := .arr [.num 2, .str "9", .str "StatusNotification", .arr []],
    timestamp := "T" }

/-- A DataTransfer Call carrying the given `vendorId` string. -/
def dataTransferEvent (vid : String) : MessageData :=
  { event := "Message", sender := "CP", protocol := some "ocpp1.6", cp_id := some "CP1",
    payload := .arr [.num 2, .str "1", .str "DataTransfer",
                     .obj [("vendorId", .str vid)]],
    timestamp := "T" }

/-- Projection of a filter result onto (topic, uniqueId) of a singleton
output, used to state the C5 counterexample. -/
def filterTopicUid (ev : MessageData) : Option (Option String × Option String) :=
  match (OCPPFilter.filter ⟨[]⟩ ev).2 with
  | .ok (some [m]) => some (m.topic, m.unique_id)
  | _ => none

/-- First C5 event: connector `"1"`, location `"L_M"`. -/
def eventC5a : MessageData :=
  meterEvent16 "CP" (.str "1") (.str "L_M")
    [("measurand", .str "Energy.Active.Import.Register")]

/-- Second C5 event: connector `"1_L"`, location `"M"`. -/
def eventC5b : MessageData :=
  meterEvent16 "CP" (.str "1_L") (.str "M")
    [("measurand", .str "Energy.Active.Import.Register")]

/-- The record `newMeterMQTTData` builds from an absent measurand with all
other inputs absent, used by the C3 and C5 witnesses. -/
def meterRecordDefault : MQTTData :=
  { device_class := "energy", cp_id := some "CP",
    topic := some "None/Outlet/Energy-Active-Import-Register",
    unique_id := some "OCPP_CP_None_Outlet_Energy-Active-Import-Register",
    timestamp := some "T",
    name := some "Energy Active Import Register Outlet CP CP" }

/-- A minimal snoop-queue event for the fan-out witnesses. -/
def msgSnoop : MessageData :=
  { event := "Message", sender := "CP", protocol := some "ocpp1.6",
    cp_id := some "CP1", payload := frameC1Val, timestamp := "T" }

/-!
## Claim theorems

Each claim of the specification is settled by one theorem below (plus a
counterexample theorem where the claim as stated fails on the code, and a
closed witness where the main theorem carries hypotheses).
-/

/-- C1, counterexample: the relay forwards the frame
`[2,"a","Heartbeat",{}]` to the peer byte-for-byte, but the snoop copy is
`json.dumps` of the parsed value, which re-serializes with separator
whitespace — the serialized snoop payload diverges from the bytes sent to
the peer. -/
theorem C1_counterexample :
    (OCPPRelay.relayStep "CP" (some "ocpp1.6") (some "CP1") "T" frameC1).sent
      = some frameC1 ∧
    (OCPPRelay.relayStep "CP" (some "ocpp1.6") (some "CP1") "T" frameC1).snooped.map
      (fun m => jsonDumps m.payload)
      = some "[2, \"a\", \"Heartbeat\", \x7b\x7d]" ∧
    ("[2, \"a\", \"Heartbeat\", \x7b\x7d]" : String) ≠ frameC1 :=
  ⟨rfl, rfl, by decide⟩

/-- C1, amended: for every frame the loop relays without an exception, the
peer receives exactly the original bytes and the snoop event's payload is
the JSON value parsed from those same bytes — the snoop copy is
semantically equal to the forwarded frame, but its serialization need not
be byte-identical. -/
theorem C1_snoop_carries_parsed_value (sender : String)
    (protocol cp_id : Option String) (ts s : String) (j v : Json)
    (hp : pyJsonLoads s = .ok j) (hi : pyIndex j 1 = .ok v) :
    OCPPRelay.relayStep sender protocol cp_id ts s =
      ⟨some s,
       some { event := "Message", sender := sender, protocol := protocol,
              cp_id := cp_id, payload := j, timestamp := ts },
       none⟩ := by
  simp [OCPPRelay.relayStep, hp, hi]

/-- Closed instance of `C1_snoop_carries_parsed_value` at `frameC1`. -/
theorem C1_witness :
    OCPPRelay.relayStep "CP" (some "ocpp1.6") (some "CP1") "T" frameC1 =
      ⟨some frameC1,
       some { event := "Message", sender := "CP", protocol := some "ocpp1.6",
              cp_id := some "CP1", payload := frameC1Val, timestamp := "T" },
       none⟩ :=
  C1_snoop_carries_parsed_value "CP" (some "ocpp1.6") (some "CP1") "T"
    frameC1 frameC1Val (.str "a") rfl rfl

/-- C2: a frame that fails to parse as JSON is not logged-and-dropped:
`json.loads` raises before the send, the loop's `except` clause catches
only `ConnectionClosed`, so the decode error escapes the forwarding loop;
neither the malformed frame nor any later frame is forwarded or snooped. -/
theorem C2_malformed_frame_crashes_loop :
    OCPPRelay.relayLoop "CP" (some "ocpp1.6") (some "CP1") "T"
      ["nonsense", frameC1] = ([], [], some .jsonDecodeError) := rfl

/-- C3, counterexample: a MeterValues sampled value whose measurand is the
unrecognized string `"Temperature"` is dropped — `filter` returns the
empty list, producing no SensorUpdate, instead of defaulting the
measurand. -/
theorem C3_counterexample :
    (OCPPFilter.filter ⟨[]⟩ eventC3).2 = .ok (some []) := rfl

/-- C3, amended: a *missing or non-string* measurand defaults to
`Energy.Active.Import.Register` and still yields a record of device class
`energy`; an unrecognized string measurand is instead dropped (see the
counterexample). -/
theorem C3_missing_measurand_defaults (st : OCPPFilter.State)
    (cp : Option String) (ts : String) (vt evse loc value unit : Option Json)
    (h : ∀ s, vt ≠ some (.str s)) :
    (OCPPFilter.newMeterMQTTData st cp ts vt evse loc value unit).map
      (fun m => (m.device_class, m.topic)) =
    some ("energy", some (pyStrOpt evse ++ "/" ++
      (if pyTruthy loc then pyStrOpt loc else "Outlet") ++ "/" ++
      "Energy-Active-Import-Register")) := by
  cases vt with
  | none => rfl
  | some j =>
    cases j with
    | str s => exact absurd rfl (h s)
    | null => rfl
    | bool b => rfl
    | num n => rfl
    | arr xs => rfl
    | obj kvs => rfl

/-- Closed instance of `C3_missing_measurand_defaults` with an absent
measurand. -/
theorem C3_witness :
    (OCPPFilter.newMeterMQTTData ⟨[]⟩ (some "CP") "T" none none none none none).map
      (fun m => (m.device_class, m.topic)) =
    some ("energy", some (pyStrOpt none ++ "/" ++
      (if pyTruthy none then pyStrOpt none else "Outlet") ++ "/" ++
      "Energy-Active-Import-Register")) :=
  C3_missing_measurand_defaults ⟨[]⟩ (some "CP") "T" none none none none none
    (fun _ h => Option.noConfusion h)

/-- C4, counterexample: when `_mqtt_on_connect` reports a hard failure
(`rc = 5`) before any successful connection, `_broker_connection_failed`
is set but `_connected` never is, so `run` spins forever in its
`while not self._connected` loop — it neither stops consuming nor surfaces
a fatal error (`none` = non-termination). -/
theorem C4_counterexample :
    MQTTPublisher.runOutcome (MQTTPublisher.onConnect 5 ⟨false, false⟩)
      false [] = none := rfl

/-- C4, amended: once a connection has succeeded (`_connected` set), a
reported hard failure makes `run` stop after at most one more dequeue and
terminate by raising `RuntimeError`; but when the failure is reported
before the first successful connection, `run` never terminates and no
error is surfaced. -/
theorem C4_fatal_only_after_first_connect (exitReq : Bool) (queue : List MQTTData) :
    MQTTPublisher.runOutcome ⟨true, true⟩ exitReq queue
      = some (queue.take 1, true) ∧
    MQTTPublisher.runOutcome ⟨false, true⟩ exitReq queue = none := by
  refine ⟨?_, rfl⟩
  show MQTTPublisher.runLoop true exitReq queue = _
  cases queue with
  | nil => cases exitReq <;> rfl
  | cons d rest =>
      by_cases h : exitReq ∧ rest.isEmpty <;> simp [MQTTPublisher.runLoop, h]

/-- C5, counterexample: two MeterValues events from the same charge point
produce records with distinct topics but the same uniqueId — collapsing
`/` to `_` is not injective when segment strings contain `_`. -/
theorem C5_counterexample :
    filterTopicUid eventC5a = some (some "1/L_M/Energy-Active-Import-Register",
      some "OCPP_CP_1_L_M_Energy-Active-Import-Register") ∧
    filterTopicUid eventC5b = some (some "1_L/M/Energy-Active-Import-Register",
      some "OCPP_CP_1_L_M_Energy-Active-Import-Register") ∧
    ("1/L_M/Energy-Active-Import-Register" : String)
      ≠ "1_L/M/Energy-Active-Import-Register" :=
  ⟨rfl, rfl, by decide⟩

/-- C5, amended: the uniqueId of every meter record is the deterministic
function `OCPP_<chargePointId>_<topic>` with `/` collapsed to `_` of the
charge-point id and the topic, so equal inputs always yield equal
uniqueIds; but the collapsing map is not injective, so distinct
(chargePointId, topic) pairs can share a uniqueId (see the
counterexample). -/
theorem C5_uid_deterministic_formula (st : OCPPFilter.State) (cp : Option String)
    (ts : String) (vt evse loc value unit : Option Json) (m : MQTTData)
    (h : OCPPFilter.newMeterMQTTData st cp ts vt evse loc value unit = some m) :
    m.unique_id = some (sReplace1 '/' '_'
      ("OCPP_" ++ pyStrOptString cp ++ "_" ++ m.topic.getD "")) := by
  unfold OCPPFilter.newMeterMQTTData at h
  cases hso : OCPPFilter.sensorTypeOf
      (sReplace1 '.' '-' (OCPPFilter.measurandString vt)) with
  | none => simp only [hso] at h; exact Option.noConfusion h
  | some s =>
      simp only [hso, Option.some.injEq] at h
      subst h
      rfl

/-- Closed instance of `C5_uid_deterministic_formula`. -/
theorem C5_witness :
    meterRecordDefault.unique_id = some (sReplace1 '/' '_'
      ("OCPP_" ++ pyStrOptString (some "CP") ++ "_"
        ++ meterRecordDefault.topic.getD "")) :=
  C5_uid_deterministic_formula ⟨[]⟩ (some "CP") "T" none none none none none
    meterRecordDefault rfl

/-- C8: the OCPP 1.6 MeterValues example — one sampled value with
measurand `Energy.Active.Import.Register`, value `"1234"`, unit `"Wh"`,
connectorId 1 and no location — yields exactly one record, with topic
`1/Outlet/Energy-Active-Import-Register`, unit `"Wh"` and device class
`energy`. -/
theorem C8_metervalues_example :
    (OCPPFilter.filter ⟨[]⟩ eventC8).2 = .ok (some [recordC8]) ∧
    recordC8.topic = some "1/Outlet/Energy-Active-Import-Register" ∧
    recordC8.unit = some (.str "Wh") ∧
    recordC8.device_class = "energy" :=
  ⟨rfl, rfl, rfl, rfl⟩

/-- C9: a Call frame with action `StatusNotification` whose fourth element
is a list rather than an object makes `filter` raise (`AttributeError`
from the unguarded `payload.get`), rather than return a result. -/
theorem C9_nonobject_payload_raises :
    (OCPPFilter.filter ⟨[]⟩ eventC9).2 = .error .attributeError := rfl

/-- Setting one key of a dict leaves lookups of every other key unchanged. -/
theorem alGet_alSet_ne [DecidableEq κ] (m : List (κ × α)) (k k' : κ) (v : α)
    (h : k' ≠ k) : alGet (alSet m k v) k' = alGet m k' := by
  induction m with
  | nil => simp [alSet, alGet, Ne.symm h]
  | cons p rest ih =>
      obtain ⟨k0, v0⟩ := p
      by_cases hk0 : k0 = k
      · subst hk0
        simp [alSet, alGet, Ne.symm h]
      · simp [alSet, alGet, hk0, ih]

/-- The manufacturer update for one charge point does not touch the entry
of any other charge point. -/
theorem updateManufacturer_lookup_other (st : OCPPFilter.State)
    (k cp : Option String) (ocpp : List Json) (hk : cp ≠ k) :
    alGet (OCPPFilter.updateManufacturer st k ocpp).manufacturer cp
      = alGet st.manufacturer cp := by
  unfold OCPPFilter.updateManufacturer
  cases h1 : (alGet st.manufacturer k).isNone <;>
    simp only [h1, Bool.false_eq_true, if_true, if_false, ite_true, ite_false] <;>
    split <;>
    simp [alGet_alSet_ne _ _ _ _ hk]

/-- A truthy learned vendor value survives the manufacturer update. -/
theorem updateManufacturer_preserves_truthy (st : OCPPFilter.State)
    (k cp : Option String) (ocpp : List Json) (v : Option Json)
    (hv : alGet st.manufacturer cp = some v) (ht : pyTruthy v = true) :
    alGet (OCPPFilter.updateManufacturer st k ocpp).manufacturer cp = some v := by
  by_cases hk : cp = k
  · subst hk
    unfold OCPPFilter.updateManufacturer
    simp [hv, ht]
  · rw [updateManufacturer_lookup_other st k cp ocpp hk]
    exact hv

/-- C6, amended: once a *truthy* (non-empty) vendorId value has been
learned for a charge point, no event processed by `filter` ever changes
that charge point's stored value; a falsy learned value (Python `None` or
the empty string) can still be overwritten (see the counterexample). -/
theorem C6_truthy_vendor_never_overwritten (st : OCPPFilter.State)
    (msg : MessageData) (cp : Option String) (v : Option Json)
    (hv : alGet st.manufacturer cp = some v) (ht : pyTruthy v = true) :
    alGet ((OCPPFilter.filter st msg).1).manufacturer cp = some v := by
  unfold OCPPFilter.filter
  repeat' split
  all_goals try (dsimp only; repeat' split)
  all_goals
    first
      | exact hv
      | exact updateManufacturer_preserves_truthy _ _ _ _ _ hv ht

/-- Closed instance of `C6_truthy_vendor_never_overwritten`: a stored
`"ACME"` survives a later `DataTransfer` carrying a different vendorId. -/
theorem C6_witness :
    alGet ((OCPPFilter.filter ⟨[(some "CP1", some (.str "ACME"))]⟩
      (dataTransferEvent "XYZ")).1).manufacturer (some "CP1")
      = some (some (.str "ACME")) :=
  C6_truthy_vendor_never_overwritten _ _ _ _ rfl rfl

/-- The fan-out loop delivers the one serialized string to exactly the
clients of the copy whose send does not fail, in iteration order. -/
theorem fwdLoop_deliveries (fails : Nat → Bool) (m : String) :
    ∀ copy live, (SnoopWebSocketServer.fwdLoop fails m copy live).1 =
      (copy.filter (fun w => !fails w)).map (fun w => (w, m)) := by
  intro copy
  induction copy with
  | nil => intro live; rfl
  | cons ws rest ih =>
      intro live
      cases hf : fails ws <;>
        simp [SnoopWebSocketServer.fwdLoop, hf, ih, List.filter_cons]

/-- After a fan-out pass, the registered set has lost exactly the clients
of the iterated copy whose send failed. -/
theorem fwdLoop_live_set (fails : Nat → Bool) (m : String) :
    ∀ copy live, live.Nodup →
      (SnoopWebSocketServer.fwdLoop fails m copy live).2 =
        live.filter (fun w => !(copy.contains w && fails w)) := by
  intro copy
  induction copy with
  | nil =>
      intro live _
      simp [SnoopWebSocketServer.fwdLoop]
  | cons ws rest ih =>
      intro live hnd
      cases hf : fails ws with
      | false =>
          rw [show (SnoopWebSocketServer.fwdLoop fails m (ws :: rest) live)
                = (let p := SnoopWebSocketServer.fwdLoop fails m rest live
                   ((ws, m) :: p.1, p.2)) by simp [SnoopWebSocketServer.fwdLoop, hf]]
          rw [ih live hnd]
          apply List.filter_congr
          intro w _
          by_cases hw : w = ws
          · subst hw; simp [hf]
          · simp [List.contains_cons, hw, fun h : w == ws => hw (by simpa using h)]
      | true =>
          rw [show (SnoopWebSocketServer.fwdLoop fails m (ws :: rest) live)
                = SnoopWebSocketServer.fwdLoop fails m rest (live.erase ws)
              by simp [SnoopWebSocketServer.fwdLoop, hf]]
          rw [ih (live.erase ws) (hnd.erase ws)]
          rw [hnd.erase_eq_filter ws, List.filter_filter]
          apply List.filter_congr
          intro w _
          by_cases hw : w = ws
          · subst hw; simp [hf]
          · simp [List.contains_cons, hw, fun h : w == ws => hw (by simpa using h)]

/-- C7: for each consumed event, the identical serialized bytes
(`json.dumps(asdict(msg))`, computed once) are delivered to every
registered session whose send succeeds; a session whose send fails is
evicted from the registered set, and its failure does not affect delivery
to the remaining sessions. -/
theorem C7_fanout_delivery (live : List Nat) (fails : Nat → Bool)
    (msg : MessageData) (hnd : live.Nodup) :
    (SnoopWebSocketServer.forwardEvent live fails msg).1 =
      (live.filter (fun w => !fails w)).map (fun w => (w, jsonDumps msg.asdict)) ∧
    (SnoopWebSocketServer.forwardEvent live fails msg).2 =
      live.filter (fun w => !fails w) := by
  constructor
  · exact fwdLoop_deliveries fails (jsonDumps msg.asdict) live live
  · rw [show SnoopWebSocketServer.forwardEvent live fails msg
          = SnoopWebSocketServer.fwdLoop fails (jsonDumps msg.asdict) live live from rfl]
    rw [fwdLoop_live_set fails (jsonDumps msg.asdict) live live hnd]
    apply List.filter_congr
    intro w hw
    have hc : live.contains w = true := by simpa using hw
    rw [hc]
    simp

/-- Closed instance of `C7_fanout_delivery` with three sessions of which
the second fails. -/
theorem C7_witness :
    (SnoopWebSocketServer.forwardEvent [1, 2, 3] (fun w => w == 2) msgSnoop).1 =
      (([1, 2, 3] : List Nat).filter (fun w => !(w == 2))).map
        (fun w => (w, jsonDumps msgSnoop.asdict)) ∧
    (SnoopWebSocketServer.forwardEvent [1, 2, 3] (fun w => w == 2) msgSnoop).2 =
      ([1, 2, 3] : List Nat).filter (fun w => !(w == 2)) :=
  C7_fanout_delivery [1, 2, 3] (fun w => w == 2) msgSnoop (by decide)

/-- C10: eviction is not idempotent — when the forwarder has already
removed a session after a failed send, the connection handler's
unconditional `set.remove` of that session raises `KeyError`. -/
theorem C10_double_eviction_keyerror (live : List Nat) (ws : Nat)
    (fails : Nat → Bool) (msg : MessageData) (hmem : ws ∈ live)
    (hf : fails ws = true) (hnd : live.Nodup) :
    SnoopWebSocketServer.setRemove
      (SnoopWebSocketServer.forwardEvent live fails msg).2 ws
      = .error .keyError := by
  have h2 : (SnoopWebSocketServer.forwardEvent live fails msg).2 =
      live.filter (fun w => !(live.contains w && fails w)) :=
    fwdLoop_live_set _ _ live live hnd
  have hnot : ws ∉ (SnoopWebSocketServer.forwardEvent live fails msg).2 := by
    rw [h2]
    intro hmemf
    have hp := List.of_mem_filter hmemf
    rw [hf, (by simpa using hmem : live.contains ws = true)] at hp
    simp at hp
  simp [SnoopWebSocketServer.setRemove, hnot]

/-- Closed instance of `C10_double_eviction_keyerror`. -/
theorem C10_witness :
    SnoopWebSocketServer.setRemove
      (SnoopWebSocketServer.forwardEvent [1, 2] (fun w => w == 2) msgSnoop).2 2
      = .error .keyError :=
  C10_double_eviction_keyerror [1, 2] 2 (fun w => w == 2) msgSnoop (by decide) rfl
    (by decide)

/-- C6, counterexample: a first `DataTransfer` carrying `vendorId = ""`
stores the empty string, and because the filter re-learns while the stored
value is falsy, a later `DataTransfer` with `vendorId = "ACME"` overwrites
it — the learned value is not set at most once. -/
theorem C6_counterexample :
    alGet ((OCPPFilter.filter ⟨[]⟩ (dataTransferEvent "")).1).manufacturer
      (some "CP1") = some (some (.str "")) ∧
    alGet ((OCPPFilter.filter (OCPPFilter.filter ⟨[]⟩ (dataTransferEvent "")).1
      (dataTransferEvent "ACME")).1).manufacturer (some "CP1")
      = some (some (.str "ACME")) ∧
    ("" : String) ≠ "ACME" :=
  ⟨rfl, rfl, by decide⟩
